import Mathlib

/-!
Shallow embedding of the Genez-io RateLimiter package (src/index.ts variant
with per-scope keys, refreshRate option and a 5-attempt reconnect budget).

The decorator GenezioRateLimiter builds one redis client at construction
time and returns a wrapper; the wrapper validates the GnzContext argument,
reads a per-minute counter under a window key, rejects with a RequestTimeout
GenezioError when the counter reached the limit, validates refreshRate,
increments the counter with an expiry, and finally invokes the wrapped
handler with the original arguments, returning its result unchanged.

Machine numbers of the source (JS numbers holding integers) are modelled as
Int; the truthiness tests of the source on numbers are tests against 0.
Time is modelled as an absolute count of calendar minutes since some epoch;
Date.getMinutes of the source is then time mod 60.
-/

namespace RateLimiterModel

/-- Error codes of the genezio types package used by the rate limiter. -/
inductive GenezioErrorCodes where
  | BadRequest
  | RequestTimeout
deriving DecidableEq, Repr

/-- A thrown value: a GenezioError carrying a code, or a lower-level redis
error (connection lost, timeout, ...) that carries no GenezioErrorCodes
code at all. -/
inductive ThrownError where
  | genezio (msg : String) (code : GenezioErrorCodes)
  | storeError (msg : String)
deriving DecidableEq, Repr

/-- The options record of the decorator. All fields are optional; a numeric
field is falsy in the source exactly when it is absent or 0. -/
structure GenezioRateLimiterOptionsParameters where
  dbUrl : Option String
  limit : Option Int
  refreshRate : Option Int
deriving DecidableEq, Repr

/-- The threshold the source compares the counter against, from the
expression picking 50 when limit is absent or falsy (0). -/
def effectiveLimit (d : GenezioRateLimiterOptionsParameters) : Int :=
  match d.limit with
  | some l => if l = 0 then 50 else l
  | none => 50

/-- The expiry passed to EXPIRE, from the expression picking 59 when
refreshRate is absent or falsy (0). -/
def effectiveExpire (d : GenezioRateLimiterOptionsParameters) : Int :=
  match d.refreshRate with
  | some r => if r = 0 then 59 else r
  | none => 59

/-- The refresh-rate validation test of the source: refreshRate is truthy
(present and nonzero) and below 1. -/
def refreshRateInvalid (d : GenezioRateLimiterOptionsParameters) : Bool :=
  match d.refreshRate with
  | some r => !(decide (r = 0)) && decide (r < 1)
  | none => false

/-- The window key template of the source: sourceIp, the decorator context
name (the scope) and Date.getMinutes, joined with colons. -/
def windowKey (sourceIp scopeName : String) (time : Nat) : String :=
  sourceIp ++ ":" ++ scopeName ++ ":" ++ Nat.repr (time % 60)

/-- The redis keyspace: each key holds an integer counter or is absent. -/
def Store : Type := String → Option Int

/-- INCR of an absent key stores 1; of a present key, its successor. -/
def Store.incrKey (st : Store) (key : String) : Store :=
  fun k => if k = key then some ((st key).getD 0 + 1) else st k

/-- The store operations a single invocation attempts, in order. -/
inductive StoreOp where
  | get (key : String)
  | incrExpire (key : String) (ttl : Int)
deriving DecidableEq, Repr

/-- Message logged and thrown when the first argument is not a GnzContext. -/
def badContextMsg : String :=
  "Error: the GenezioRateLimiter decorator must be used with the first parameter being a GnzContext object"

/-- Advice message logged in the catch blocks of the source. -/
def redisAdviceMsg : String :=
  "Error when operating on the redis client. Remember to set the Redis dbUrl parameter in the GenezioRateLimiter decorator."

/-- Message of the rate-limit rejection. -/
def rateLimitMsg : String := "Rate limit exceeded"

/-- Message of the refresh-rate validation error. -/
def refreshRateMsg : String := "The refresh rate must be at least 1 second"

/-- Everything one invocation of the wrapped function produces: the value it
returns or the error it throws, the store afterwards, the store operations
it attempted in order, the argument lists the wrapped handler was invoked
with, and the console lines it logged. -/
structure CallResult (α ρ : Type) where
  result : Except ThrownError ρ
  store : Store
  ops : List StoreOp
  handlerCalls : List (List α)
  logs : List String

/-- Shallow embedding of the async wrapper returned by the decorator.

isGnzContext and sourceIp project the duck-typed fields of the first
argument; getError and incrError tell whether the GET or the MULTI
INCR-EXPIRE throws a redis error on this invocation (and with which
message); handler models the bound wrapped function applied to the
arguments, its result or exception returned unchanged. -/
def rateLimitedCall {α ρ : Type} (isGnzContext : α → Bool) (sourceIp : α → String)
    (dict : GenezioRateLimiterOptionsParameters) (scopeName : String) (time : Nat)
    (handler : List α → Except ThrownError ρ) (getError incrError : Option String)
    (args : List α) (st : Store) : CallResult α ρ :=
  match args with
  | [] =>
    { result := .error (.genezio badContextMsg .BadRequest), store := st, ops := [],
      handlerCalls := [], logs := [badContextMsg] }
  | arg0 :: _ =>
    if !(isGnzContext arg0) then
      { result := .error (.genezio badContextMsg .BadRequest), store := st, ops := [],
        handlerCalls := [], logs := [badContextMsg] }
    else
      let key := windowKey (sourceIp arg0) scopeName time
      match getError with
      | some m =>
        { result := .error (.storeError m), store := st, ops := [.get key],
          handlerCalls := [], logs := [redisAdviceMsg] }
      | none =>
        let oldCount := st key
        if oldCount.isSome && decide (effectiveLimit dict ≤ oldCount.getD 0) then
          { result := .error (.genezio rateLimitMsg .RequestTimeout), store := st,
            ops := [.get key], handlerCalls := [], logs := [] }
        else if refreshRateInvalid dict then
          { result := .error (.genezio refreshRateMsg .BadRequest), store := st,
            ops := [.get key], handlerCalls := [], logs := [redisAdviceMsg] }
        else
          match incrError with
          | some m =>
            { result := .error (.storeError m), store := st,
              ops := [.get key, .incrExpire key (effectiveExpire dict)],
              handlerCalls := [], logs := [redisAdviceMsg] }
          | none =>
            { result := handler args, store := st.incrKey key,
              ops := [.get key, .incrExpire key (effectiveExpire dict)],
              handlerCalls := [args], logs := [] }

/-- The store after a sequence of n identical invocations, threading the
store from one to the next. -/
def callSeq {α ρ : Type} (isGnzContext : α → Bool) (sourceIp : α → String)
    (dict : GenezioRateLimiterOptionsParameters) (scopeName : String) (time : Nat)
    (handler : List α → Except ThrownError ρ) (getError incrError : Option String)
    (args : List α) (st : Store) : Nat → Store
  | 0 => st
  | n + 1 =>
    (rateLimitedCall isGnzContext sourceIp dict scopeName time handler getError incrError
      args (callSeq isGnzContext sourceIp dict scopeName time handler getError incrError
        args st n)).store

/-- State of the redis connector owned by one limiter instance: the shared
retryCount cell read by the retryStrategy closure and written by the error
handler, whether disconnect was called, and whether the terminal failure
was escalated. -/
structure ConnectorState where
  retryCount : Nat
  disconnected : Bool
  failed : Bool
deriving DecidableEq, Repr

/-- Connector state right after construction. -/
def initialConnector : ConnectorState := ⟨0, false, false⟩

/-- The retryStrategy closure of the source: no further reconnect once
retryCount exceeded 5, else a fixed 1000 ms delay. -/
def retryStrategy (s : ConnectorState) : Option Nat :=
  if s.retryCount > 5 then none else some 1000

/-- Transport events the connector reacts to. -/
inductive ConnectorEvent where
  | errorEvent
  | reconnectingEvent
deriving DecidableEq, Repr

/-- The event handlers of the source: the error handler increments
retryCount and, past 5, disconnects and escalates the failure; the
reconnecting handler only logs. -/
def connectorStep (s : ConnectorState) : ConnectorEvent → ConnectorState
  | .errorEvent =>
    let rc := s.retryCount + 1
    if rc > 5 then ⟨rc, true, true⟩ else ⟨rc, s.disconnected, s.failed⟩
  | .reconnectingEvent => s

/-- Outcome of evaluating the body of the construction try block (the Redis
constructor call and the two handler registrations). -/
inductive InitOutcome where
  | ok
  | throws (e : ThrownError)
deriving DecidableEq, Repr

/-- The construction try-catch of the source: on a throw it logs the advice
message and rethrows, so the decorator factory itself throws. Returns the
console lines and either unit (the decorator was produced) or the
propagated error. -/
def constructLimiter (init : InitOutcome) : List String × Except ThrownError Unit :=
  match init with
  | .ok => ([], .ok ())
  | .throws e => ([redisAdviceMsg], .error e)

/-- A concrete duck-typed first argument for closed evaluations. -/
structure TestCtx where
  isGnz : Bool
  ip : String
deriving DecidableEq, Repr

/-! Helper lemmas about the minute component of the window key. -/

theorem minuteRepr_colon_free : ∀ m : Fin 60, ':' ∉ (Nat.repr m.val).data ∧
    ((Nat.repr m.val).data.length = 1 ∨ (Nat.repr m.val).data.length = 2) := by decide

theorem minuteRepr_inj : ∀ a b : Fin 60, Nat.repr a.val = Nat.repr b.val → a = b := by decide

theorem windowKey_data (ip s : String) (t : Nat) :
    (windowKey ip s t).data = ip.data ++ ':' :: (s.data ++ ':' :: (Nat.repr (t % 60)).data) := by
  have hc : (":" : String).data = [':'] := rfl
  simp [windowKey, String.data_append, hc]

theorem append_colon_eq {a b d1 d2 : List Char}
    (h1 : ':' ∉ d1) (h2 : ':' ∉ d2)
    (hl1 : d1.length = 1 ∨ d1.length = 2) (hl2 : d2.length = 1 ∨ d2.length = 2)
    (h : a ++ ':' :: d1 = b ++ ':' :: d2) : a = b ∧ d1 = d2 := by
  have hrev : d1.reverse ++ ':' :: a.reverse = d2.reverse ++ ':' :: b.reverse := by
    have := congrArg List.reverse h
    simpa [List.reverse_append] using this
  rcases hl1 with hl1 | hl1
  · obtain ⟨x, hx⟩ := List.length_eq_one.mp hl1
    rcases hl2 with hl2 | hl2
    · obtain ⟨u, hu⟩ := List.length_eq_one.mp hl2
      subst hx; subst hu
      simp only [List.reverse_cons, List.reverse_nil, List.nil_append, List.cons_append,
        List.cons.injEq] at hrev
      obtain ⟨hxu, _, hab⟩ := hrev
      exact ⟨List.reverse_inj.mp hab, by rw [hxu]⟩
    · obtain ⟨u, v, huv⟩ := List.length_eq_two.mp hl2
      subst hx; subst huv
      simp only [List.reverse_cons, List.reverse_nil, List.nil_append, List.cons_append,
        List.append_assoc, List.cons.injEq] at hrev
      exact absurd hrev.2.1.symm (by simpa using fun hcol => h2 (by simp [hcol]))
  · obtain ⟨x, y, hxy⟩ := List.length_eq_two.mp hl1
    rcases hl2 with hl2 | hl2
    · obtain ⟨u, hu⟩ := List.length_eq_one.mp hl2
      subst hxy; subst hu
      simp only [List.reverse_cons, List.reverse_nil, List.nil_append, List.cons_append,
        List.append_assoc, List.cons.injEq] at hrev
      exact absurd hrev.2.1 (by simpa using fun hcol => h1 (by simp [hcol]))
    · obtain ⟨u, v, huv⟩ := List.length_eq_two.mp hl2
      subst hxy; subst huv
      simp only [List.reverse_cons, List.reverse_nil, List.nil_append, List.cons_append,
        List.append_assoc, List.cons.injEq] at hrev
      obtain ⟨hyv, hxu, _, hab⟩ := hrev
      exact ⟨List.reverse_inj.mp hab, by rw [hxu, hyv]⟩

theorem windowKey_eq_iff (ip s1 s2 : String) (t1 t2 : Nat) :
    windowKey ip s1 t1 = windowKey ip s2 t2 ↔ (s1 = s2 ∧ t1 % 60 = t2 % 60) := by
  constructor
  · intro h
    have hdata := String.ext_iff.mp h
    rw [windowKey_data, windowKey_data] at hdata
    have hx := List.append_cancel_left hdata
    have hy : s1.data ++ ':' :: (Nat.repr (t1 % 60)).data =
        s2.data ++ ':' :: (Nat.repr (t2 % 60)).data := by
      exact (List.cons.injEq _ _ _ _).mp hx |>.2
    have hm1 : t1 % 60 < 60 := Nat.mod_lt _ (by norm_num)
    have hm2 : t2 % 60 < 60 := Nat.mod_lt _ (by norm_num)
    have f1 := minuteRepr_colon_free ⟨t1 % 60, hm1⟩
    have f2 := minuteRepr_colon_free ⟨t2 % 60, hm2⟩
    obtain ⟨hs, hd⟩ := append_colon_eq f1.1 f2.1 f1.2 f2.2 hy
    refine ⟨String.ext hs, ?_⟩
    have : (⟨t1 % 60, hm1⟩ : Fin 60) = ⟨t2 % 60, hm2⟩ :=
      minuteRepr_inj _ _ (String.ext hd)
    exact congrArg Fin.val this
  · rintro ⟨rfl, hm⟩
    unfold windowKey
    rw [hm]

theorem windowKey_scope_ne (ip s1 s2 : String) (t1 t2 : Nat) (hs : s1 ≠ s2) :
    windowKey ip s1 t1 ≠ windowKey ip s2 t2 := by
  intro h
  exact hs ((windowKey_eq_iff ip s1 s2 t1 t2).mp h).1

/-! Helper lemmas about single invocations of the wrapper. -/

theorem rateLimitedCall_underLimit {α ρ : Type} (isGnzContext : α → Bool) (sourceIp : α → String)
    (dict : GenezioRateLimiterOptionsParameters) (scopeName : String) (time : Nat)
    (handler : List α → Except ThrownError ρ) (a : α) (rest : List α) (st : Store)
    (hctx : isGnzContext a = true)
    (hrr : refreshRateInvalid dict = false)
    (hunder : ∀ c, st (windowKey (sourceIp a) scopeName time) = some c →
      c < effectiveLimit dict) :
    rateLimitedCall isGnzContext sourceIp dict scopeName time handler none none
      (a :: rest) st =
      { result := handler (a :: rest),
        store := st.incrKey (windowKey (sourceIp a) scopeName time),
        ops := [.get (windowKey (sourceIp a) scopeName time),
                .incrExpire (windowKey (sourceIp a) scopeName time) (effectiveExpire dict)],
        handlerCalls := [a :: rest], logs := [] } := by
  unfold rateLimitedCall
  cases hkey : st (windowKey (sourceIp a) scopeName time) with
  | none => simp [hctx, hrr, hkey]
  | some c =>
    have hlt := hunder c hkey
    simp [hctx, hrr, hkey, not_le.mpr hlt]

theorem rateLimitedCall_reject {α ρ : Type} (isGnzContext : α → Bool) (sourceIp : α → String)
    (dict : GenezioRateLimiterOptionsParameters) (scopeName : String) (time : Nat)
    (handler : List α → Except ThrownError ρ) (a : α) (rest : List α) (st : Store) (c : Int)
    (hctx : isGnzContext a = true)
    (hkey : st (windowKey (sourceIp a) scopeName time) = some c)
    (hc : effectiveLimit dict ≤ c) :
    rateLimitedCall isGnzContext sourceIp dict scopeName time handler none none
      (a :: rest) st =
      { result := .error (.genezio rateLimitMsg .RequestTimeout), store := st,
        ops := [.get (windowKey (sourceIp a) scopeName time)],
        handlerCalls := [], logs := [] } := by
  unfold rateLimitedCall
  simp [hctx, hkey, hc]

theorem Store.incrKey_same (st : Store) (key : String) :
    st.incrKey key key = some ((st key).getD 0 + 1) := by
  simp [Store.incrKey]

theorem Store.incrKey_other (st : Store) (key k : String) (h : k ≠ key) :
    st.incrKey key k = st k := by
  simp [Store.incrKey, h]

theorem callSeq_count {α ρ : Type} (isGnzContext : α → Bool) (sourceIp : α → String)
    (dict : GenezioRateLimiterOptionsParameters) (scopeName : String) (time : Nat)
    (handler : List α → Except ThrownError ρ) (a : α) (rest : List α) (st : Store) (L : Nat)
    (hctx : isGnzContext a = true)
    (hrr : refreshRateInvalid dict = false)
    (hL : effectiveLimit dict = (L : Int))
    (hst : st (windowKey (sourceIp a) scopeName time) = none) :
    ∀ n, n ≤ L →
      callSeq isGnzContext sourceIp dict scopeName time handler none none (a :: rest) st n
        (windowKey (sourceIp a) scopeName time) =
        if n = 0 then none else some (n : Int) := by
  intro n
  induction n with
  | zero => intro _; simpa using hst
  | succ k ih =>
    intro hk
    have hk' : k ≤ L := Nat.le_of_succ_le hk
    have hklt : k < L := Nat.lt_of_succ_le hk
    have hkey := ih hk'
    have hunder : ∀ c,
        callSeq isGnzContext sourceIp dict scopeName time handler none none (a :: rest) st k
          (windowKey (sourceIp a) scopeName time) = some c → c < effectiveLimit dict := by
      intro c hc
      rw [hkey] at hc
      by_cases hk0 : k = 0
      · simp [hk0] at hc
      · simp [hk0] at hc
        rw [hL, ← hc]
        exact_mod_cast hklt
    have hstep := rateLimitedCall_underLimit isGnzContext sourceIp dict scopeName time handler a rest
      (callSeq isGnzContext sourceIp dict scopeName time handler none none (a :: rest) st k)
      hctx hrr hunder
    show (rateLimitedCall isGnzContext sourceIp dict scopeName time handler none none
      (a :: rest) _).store _ = _
    rw [hstep]
    simp only [Store.incrKey_same, hkey]
    by_cases hk0 : k = 0
    · simp [hk0]
    · simp [hk0]

theorem rateLimitedCall_refresh_invalid {α ρ : Type} (isGnzContext : α → Bool)
    (sourceIp : α → String) (dict : GenezioRateLimiterOptionsParameters)
    (scopeName : String) (time : Nat) (handler : List α → Except ThrownError ρ)
    (a : α) (rest : List α) (st : Store)
    (hctx : isGnzContext a = true)
    (hrr : refreshRateInvalid dict = true)
    (hunder : ∀ c, st (windowKey (sourceIp a) scopeName time) = some c →
      c < effectiveLimit dict) :
    rateLimitedCall isGnzContext sourceIp dict scopeName time handler none none
      (a :: rest) st =
      { result := .error (.genezio refreshRateMsg .BadRequest), store := st,
        ops := [.get (windowKey (sourceIp a) scopeName time)],
        handlerCalls := [], logs := [redisAdviceMsg] } := by
  unfold rateLimitedCall
  cases hkey : st (windowKey (sourceIp a) scopeName time) with
  | none => simp [hctx, hrr, hkey]
  | some c =>
    have hlt := hunder c hkey
    simp [hctx, hrr, hkey, not_le.mpr hlt]

theorem effectiveLimit_zero (d : GenezioRateLimiterOptionsParameters)
    (h : d.limit = some 0) : effectiveLimit d = 50 := by
  simp [effectiveLimit, h]

/-! Helper lemmas about the connector state machine. -/

theorem connectorStep_retryCount_le (s : ConnectorState) (e : ConnectorEvent) :
    s.retryCount ≤ (connectorStep s e).retryCount := by
  cases e with
  | errorEvent =>
    simp only [connectorStep]
    split <;> exact Nat.le_succ _
  | reconnectingEvent => exact Nat.le_refl _

theorem retryStrategy_none_persists (evs : List ConnectorEvent) :
    ∀ s : ConnectorState, 5 < s.retryCount →
      retryStrategy (List.foldl connectorStep s evs) = none := by
  induction evs with
  | nil =>
    intro s hs
    simp [retryStrategy, hs]
  | cons e evs ih =>
    intro s hs
    exact ih _ (lt_of_lt_of_le hs (connectorStep_retryCount_le s e))

/-! The claims. -/

/-- C1: with configured limit L (default 50) and a fixed identity (sourceIp,
scope) within one calendar-minute window starting from an empty counter, the
1st through L-th invocations are admitted (the handler runs with the
original arguments and its result is returned), and the (L+1)-th invocation
is rejected with the RequestTimeout GenezioError "Rate limit exceeded"
without the handler being invoked. -/
theorem c1_limit_enforcement {α ρ : Type} (isGnzContext : α → Bool) (sourceIp : α → String)
    (dict : GenezioRateLimiterOptionsParameters) (scopeName : String) (time : Nat)
    (handler : List α → Except ThrownError ρ) (a : α) (rest : List α) (st : Store) (L : Nat)
    (hctx : isGnzContext a = true)
    (hrr : refreshRateInvalid dict = false)
    (hL : effectiveLimit dict = (L : Int))
    (hLpos : 0 < L)
    (hst : st (windowKey (sourceIp a) scopeName time) = none) :
    (∀ i, i < L →
      (rateLimitedCall isGnzContext sourceIp dict scopeName time handler none none (a :: rest)
        (callSeq isGnzContext sourceIp dict scopeName time handler none none (a :: rest)
          st i)).handlerCalls = [a :: rest] ∧
      (rateLimitedCall isGnzContext sourceIp dict scopeName time handler none none (a :: rest)
        (callSeq isGnzContext sourceIp dict scopeName time handler none none (a :: rest)
          st i)).result = handler (a :: rest)) ∧
    (rateLimitedCall isGnzContext sourceIp dict scopeName time handler none none (a :: rest)
      (callSeq isGnzContext sourceIp dict scopeName time handler none none (a :: rest)
        st L)).result = .error (.genezio rateLimitMsg .RequestTimeout) ∧
    (rateLimitedCall isGnzContext sourceIp dict scopeName time handler none none (a :: rest)
      (callSeq isGnzContext sourceIp dict scopeName time handler none none (a :: rest)
        st L)).handlerCalls = [] := by
  have hcount := callSeq_count isGnzContext sourceIp dict scopeName time handler a rest st L
    hctx hrr hL hst
  refine ⟨?_, ?_⟩
  · intro i hi
    have hunder : ∀ c, callSeq isGnzContext sourceIp dict scopeName time handler none none
        (a :: rest) st i (windowKey (sourceIp a) scopeName time) = some c →
        c < effectiveLimit dict := by
      intro c hc
      rw [hcount i (Nat.le_of_lt hi)] at hc
      by_cases hi0 : i = 0
      · simp [hi0] at hc
      · simp [hi0] at hc
        rw [hL, ← hc]
        exact_mod_cast hi
    have hstep := rateLimitedCall_underLimit isGnzContext sourceIp dict scopeName time handler a rest
      (callSeq isGnzContext sourceIp dict scopeName time handler none none (a :: rest) st i)
      hctx hrr hunder
    rw [hstep]
    exact ⟨rfl, rfl⟩
  · have hkeyL : callSeq isGnzContext sourceIp dict scopeName time handler none none
        (a :: rest) st L (windowKey (sourceIp a) scopeName time) = some (L : Int) := by
      have := hcount L (Nat.le_refl L)
      rwa [if_neg (Nat.pos_iff_ne_zero.mp hLpos)] at this
    have hstep := rateLimitedCall_reject isGnzContext sourceIp dict scopeName time handler a rest
      (callSeq isGnzContext sourceIp dict scopeName time handler none none (a :: rest) st L)
      (L : Int) hctx hkeyL (le_of_eq hL)
    rw [hstep]
    exact ⟨rfl, rfl⟩

/-- C1 witness: with limit 2 and a fixed identity, the 2nd request is
admitted and the 3rd is rejected with the rate-limit error. -/
theorem c1_limit_enforcement_witness :
    (rateLimitedCall TestCtx.isGnz TestCtx.ip ⟨none, some 2, none⟩ "getData" 7
      (fun _ => .ok (42 : Nat)) none none [⟨true, "1.2.3.4"⟩]
      (callSeq TestCtx.isGnz TestCtx.ip ⟨none, some 2, none⟩ "getData" 7
        (fun _ => .ok (42 : Nat)) none none [⟨true, "1.2.3.4"⟩]
        (fun _ => none) 1)).result = .ok 42 ∧
    (rateLimitedCall TestCtx.isGnz TestCtx.ip ⟨none, some 2, none⟩ "getData" 7
      (fun _ => .ok (42 : Nat)) none none [⟨true, "1.2.3.4"⟩]
      (callSeq TestCtx.isGnz TestCtx.ip ⟨none, some 2, none⟩ "getData" 7
        (fun _ => .ok (42 : Nat)) none none [⟨true, "1.2.3.4"⟩]
        (fun _ => none) 2)).result = .error (.genezio rateLimitMsg .RequestTimeout) := by
  obtain ⟨hfirst, hreject, -⟩ := c1_limit_enforcement TestCtx.isGnz TestCtx.ip
    ⟨none, some 2, none⟩ "getData" 7 (fun _ => .ok (42 : Nat)) ⟨true, "1.2.3.4"⟩ []
    (fun _ => none) 2 rfl rfl rfl (by decide) rfl
  exact ⟨(hfirst 1 (by decide)).2, hreject⟩

/-- C2 (code bug): the catch block of the wrapper rethrows every error, so a
redis error raised during the GET (and likewise during the INCR-EXPIRE) is
logged but then propagated to the caller, and the wrapped handler is never
invoked: the code is fail-closed on store errors, while its own comment and
the spec describe only the RequestTimeout rejection as propagating. -/
theorem c2_store_error_propagates :
    (rateLimitedCall TestCtx.isGnz TestCtx.ip ⟨none, none, none⟩ "getData" 7
      (fun _ => .ok (42 : Nat)) (some "Connection is closed.") none
      [⟨true, "1.2.3.4"⟩] (fun _ => none)).result =
        .error (.storeError "Connection is closed.") ∧
    (rateLimitedCall TestCtx.isGnz TestCtx.ip ⟨none, none, none⟩ "getData" 7
      (fun _ => .ok (42 : Nat)) (some "Connection is closed.") none
      [⟨true, "1.2.3.4"⟩] (fun _ => none)).handlerCalls = [] ∧
    (rateLimitedCall TestCtx.isGnz TestCtx.ip ⟨none, none, none⟩ "getData" 7
      (fun _ => .ok (42 : Nat)) (some "Connection is closed.") none
      [⟨true, "1.2.3.4"⟩] (fun _ => none)).logs = [redisAdviceMsg] ∧
    (rateLimitedCall TestCtx.isGnz TestCtx.ip ⟨none, none, none⟩ "getData" 7
      (fun _ => .ok (42 : Nat)) none (some "Connection is closed.")
      [⟨true, "1.2.3.4"⟩] (fun _ => none)).result =
        .error (.storeError "Connection is closed.") ∧
    (rateLimitedCall TestCtx.isGnz TestCtx.ip ⟨none, none, none⟩ "getData" 7
      (fun _ => .ok (42 : Nat)) none (some "Connection is closed.")
      [⟨true, "1.2.3.4"⟩] (fun _ => none)).handlerCalls = [] :=
  ⟨rfl, rfl, rfl, rfl, rfl⟩

/-- C3 counterexample: the key is built from Date.getMinutes, the
minute-of-hour, so the calendar minutes 5 and 65 (the same minute-of-hour
one hour apart) are distinct calendar minutes yet yield the same key. -/
theorem c3_minutes_counterexample :
    windowKey "1.2.3.4" "getData" 5 = windowKey "1.2.3.4" "getData" 65 ∧
    (5 : Nat) ≠ 65 := ⟨rfl, by decide⟩

/-- C3 amended: for a fixed identity the window keys are identical exactly
when the two calendar minutes agree modulo 60, i.e. share the same
minute-of-hour; distinct calendar minutes in different hours can collide. -/
theorem c3_window_key_eq_iff (ip scopeName : String) (t1 t2 : Nat) :
    windowKey ip scopeName t1 = windowKey ip scopeName t2 ↔ t1 % 60 = t2 % 60 := by
  rw [windowKey_eq_iff]
  simp

/-- C4 counterexample: with refreshRate = 0 the validation test is skipped
(0 is falsy), no BadRequest is raised, the store is contacted with a GET and
an INCR-EXPIRE carrying the default 59-second expiry, and the handler runs. -/
theorem c4_zero_refresh_rate_admitted :
    (rateLimitedCall TestCtx.isGnz TestCtx.ip ⟨none, none, some 0⟩ "getData" 3
      (fun _ => .ok (11 : Nat)) none none [⟨true, "8.8.8.8"⟩]
      (fun _ => none)).result = .ok 11 ∧
    (rateLimitedCall TestCtx.isGnz TestCtx.ip ⟨none, none, some 0⟩ "getData" 3
      (fun _ => .ok (11 : Nat)) none none [⟨true, "8.8.8.8"⟩]
      (fun _ => none)).ops = [.get (windowKey "8.8.8.8" "getData" 3),
        .incrExpire (windowKey "8.8.8.8" "getData" 3) 59] ∧
    (rateLimitedCall TestCtx.isGnz TestCtx.ip ⟨none, none, some 0⟩ "getData" 3
      (fun _ => .ok (11 : Nat)) none none [⟨true, "8.8.8.8"⟩]
      (fun _ => none)).handlerCalls = [[⟨true, "8.8.8.8"⟩]] :=
  ⟨rfl, rfl, rfl⟩

/-- C4 amended: a negative refreshRate makes every request with a valid
context and a counter below the limit fail with the BadRequest GenezioError
about the refresh rate, raised after the counter GET (the store is
contacted once) but before any INCR or EXPIRE; a refreshRate of 0 is
treated as absent, the default 59-second expiry is used and the request
proceeds normally. -/
theorem c4_refresh_rate_validation {α ρ : Type} (isGnzContext : α → Bool)
    (sourceIp : α → String) (dict : GenezioRateLimiterOptionsParameters)
    (scopeName : String) (time : Nat) (handler : List α → Except ThrownError ρ)
    (a : α) (rest : List α) (st : Store) (rr : Int)
    (hctx : isGnzContext a = true)
    (hrrv : dict.refreshRate = some rr)
    (hunder : ∀ c, st (windowKey (sourceIp a) scopeName time) = some c →
      c < effectiveLimit dict) :
    (rr < 0 →
      (rateLimitedCall isGnzContext sourceIp dict scopeName time handler none none
        (a :: rest) st).result = .error (.genezio refreshRateMsg .BadRequest) ∧
      (rateLimitedCall isGnzContext sourceIp dict scopeName time handler none none
        (a :: rest) st).ops = [.get (windowKey (sourceIp a) scopeName time)] ∧
      (rateLimitedCall isGnzContext sourceIp dict scopeName time handler none none
        (a :: rest) st).handlerCalls = []) ∧
    (rr = 0 →
      (rateLimitedCall isGnzContext sourceIp dict scopeName time handler none none
        (a :: rest) st).result = handler (a :: rest) ∧
      (rateLimitedCall isGnzContext sourceIp dict scopeName time handler none none
        (a :: rest) st).ops = [.get (windowKey (sourceIp a) scopeName time),
          .incrExpire (windowKey (sourceIp a) scopeName time) 59] ∧
      (rateLimitedCall isGnzContext sourceIp dict scopeName time handler none none
        (a :: rest) st).handlerCalls = [a :: rest]) := by
  constructor
  · intro hneg
    have hinv : refreshRateInvalid dict = true := by
      simp [refreshRateInvalid, hrrv]
      omega
    have hstep := rateLimitedCall_refresh_invalid isGnzContext sourceIp dict scopeName time
      handler a rest st hctx hinv hunder
    rw [hstep]
    exact ⟨rfl, rfl, rfl⟩
  · intro h0
    have hinv : refreshRateInvalid dict = false := by
      simp [refreshRateInvalid, hrrv, h0]
    have hexp : effectiveExpire dict = 59 := by
      simp [effectiveExpire, hrrv, h0]
    have hstep := rateLimitedCall_underLimit isGnzContext sourceIp dict scopeName time
      handler a rest st hctx hinv hunder
    rw [hstep, hexp]
    exact ⟨rfl, rfl, rfl⟩

/-- C4 amended witness: with refreshRate = -1 the concrete request fails
with the BadRequest refresh-rate error after exactly one GET. -/
theorem c4_refresh_rate_validation_witness :
    (rateLimitedCall TestCtx.isGnz TestCtx.ip ⟨none, none, some (-1)⟩ "getData" 3
      (fun _ => .ok (11 : Nat)) none none [⟨true, "8.8.8.8"⟩]
      (fun _ => none)).result = .error (.genezio refreshRateMsg .BadRequest) ∧
    (rateLimitedCall TestCtx.isGnz TestCtx.ip ⟨none, none, some (-1)⟩ "getData" 3
      (fun _ => .ok (11 : Nat)) none none [⟨true, "8.8.8.8"⟩]
      (fun _ => none)).ops = [.get (windowKey "8.8.8.8" "getData" 3)] := by
  obtain ⟨hneg, -⟩ := c4_refresh_rate_validation TestCtx.isGnz TestCtx.ip
    ⟨none, none, some (-1)⟩ "getData" 3 (fun _ => .ok (11 : Nat)) ⟨true, "8.8.8.8"⟩ []
    (fun _ => none) (-1) rfl rfl (by intro c hc; exact absurd hc (by simp))
  obtain ⟨h1, h2, -⟩ := hneg (by decide)
  exact ⟨h1, h2⟩

/-- C5: two invocations with the same sourceIp but different scopes compute
different window keys, whatever the minutes, and the INCR of one key leaves
the counter stored under the other key unchanged. -/
theorem c5_scope_independence (ip s1 s2 : String) (t1 t2 : Nat) (st : Store)
    (hs : s1 ≠ s2) :
    windowKey ip s1 t1 ≠ windowKey ip s2 t2 ∧
    st.incrKey (windowKey ip s1 t1) (windowKey ip s2 t2) = st (windowKey ip s2 t2) := by
  refine ⟨windowKey_scope_ne ip s1 s2 t1 t2 hs, ?_⟩
  exact Store.incrKey_other st _ _ (windowKey_scope_ne ip s2 s1 t2 t1 (Ne.symm hs))

/-- C5 witness: concrete keys for scopes "getData" and "putData" differ and
incrementing one does not change the counter under the other. -/
theorem c5_scope_independence_witness :
    windowKey "9.9.9.9" "getData" 3 ≠ windowKey "9.9.9.9" "putData" 4 ∧
    Store.incrKey (fun _ => some 7) (windowKey "9.9.9.9" "getData" 3)
      (windowKey "9.9.9.9" "putData" 4) = (fun _ => some 7 : Store)
        (windowKey "9.9.9.9" "putData" 4) :=
  c5_scope_independence "9.9.9.9" "getData" "putData" 3 4 (fun _ => some 7) (by decide)

/-- C6 counterexample: when the body of the construction try block throws,
the catch of the source logs the advice message and rethrows, so the call
to GenezioRateLimiter itself throws rather than producing a decorator. -/
theorem c6_construction_does_throw :
    (constructLimiter (.throws (.storeError "connect ECONNREFUSED"))).2 =
      .error (.storeError "connect ECONNREFUSED") ∧
    (constructLimiter (.throws (.storeError "connect ECONNREFUSED"))).2 ≠ .ok () :=
  ⟨rfl, fun h => Except.noConfusion h⟩

/-- C6 amended: if initiating the connection fails at construction, the
error is logged (the advice line) and construction rethrows it: the
GenezioRateLimiter call propagates the error instead of returning. -/
theorem c6_construction_rethrows (e : ThrownError) :
    constructLimiter (.throws e) = ([redisAdviceMsg], .error e) := rfl

/-- C7: an invocation whose argument list is empty or whose first argument
does not carry the isGnzContext marker throws the BadRequest GenezioError
about the GnzContext before any store operation (the operation list is
empty and the store untouched), the handler never runs, and this happens
whatever errors the store would have raised. -/
theorem c7_bad_context {α ρ : Type} (isGnzContext : α → Bool) (sourceIp : α → String)
    (dict : GenezioRateLimiterOptionsParameters) (scopeName : String) (time : Nat)
    (handler : List α → Except ThrownError ρ) (getError incrError : Option String)
    (args : List α) (st : Store)
    (h : args = [] ∨ ∃ a rest, args = a :: rest ∧ isGnzContext a = false) :
    (rateLimitedCall isGnzContext sourceIp dict scopeName time handler getError incrError
      args st).result = .error (.genezio badContextMsg .BadRequest) ∧
    (rateLimitedCall isGnzContext sourceIp dict scopeName time handler getError incrError
      args st).ops = [] ∧
    (rateLimitedCall isGnzContext sourceIp dict scopeName time handler getError incrError
      args st).handlerCalls = [] ∧
    (rateLimitedCall isGnzContext sourceIp dict scopeName time handler getError incrError
      args st).store = st := by
  rcases h with rfl | ⟨a, rest, rfl, hctx⟩
  · exact ⟨rfl, rfl, rfl, rfl⟩
  · simp [rateLimitedCall, hctx]

/-- C7 witness: the empty argument list is rejected with the BadRequest
context error and no store operation. -/
theorem c7_bad_context_witness :
    (rateLimitedCall TestCtx.isGnz TestCtx.ip ⟨none, none, none⟩ "getData" 0
      (fun _ => .ok (0 : Nat)) none none [] (fun _ => none)).result =
        .error (.genezio badContextMsg .BadRequest) ∧
    (rateLimitedCall TestCtx.isGnz TestCtx.ip ⟨none, none, none⟩ "getData" 0
      (fun _ => .ok (0 : Nat)) none none [] (fun _ => none)).ops = [] := by
  obtain ⟨h1, h2, -, -⟩ := c7_bad_context TestCtx.isGnz TestCtx.ip ⟨none, none, none⟩
    "getData" 0 (fun _ => .ok (0 : Nat)) none none [] (fun _ => none) (Or.inl rfl)
  exact ⟨h1, h2⟩

/-- C8: while retryCount is within the budget of 5 the retryStrategy
schedules a fixed 1000 ms delay; once the budget is exceeded the strategy
yields no delay forever (whatever further events arrive), and the error
handler that crossed the budget has disconnected the client and escalated
the Failed state. -/
theorem c8_reconnect_budget (s : ConnectorState) (evs : List ConnectorEvent) :
    (s.retryCount ≤ 5 → retryStrategy s = some 1000) ∧
    (5 < s.retryCount → retryStrategy (List.foldl connectorStep s evs) = none) ∧
    (s.retryCount = 5 → connectorStep s .errorEvent = ⟨6, true, true⟩) := by
  refine ⟨?_, ?_, ?_⟩
  · intro h
    simp [retryStrategy, not_lt.mpr h]
  · intro h
    exact retryStrategy_none_persists evs s h
  · intro h
    simp [connectorStep, h]

/-- C8 witness: the fresh connector retries after 1000 ms, the sixth error
disconnects and fails, and past the budget no event re-enables retries. -/
theorem c8_reconnect_budget_witness :
    retryStrategy initialConnector = some 1000 ∧
    retryStrategy (List.foldl connectorStep ⟨6, true, true⟩
      [ConnectorEvent.errorEvent, ConnectorEvent.reconnectingEvent]) = none ∧
    connectorStep ⟨5, false, false⟩ .errorEvent = ⟨6, true, true⟩ := by
  refine ⟨?_, ?_, ?_⟩
  · exact (c8_reconnect_budget initialConnector []).1 (by decide)
  · exact (c8_reconnect_budget ⟨6, true, true⟩
      [ConnectorEvent.errorEvent, ConnectorEvent.reconnectingEvent]).2.1 (by decide)
  · exact (c8_reconnect_budget ⟨5, false, false⟩ []).2.2 rfl

/-- C9 counterexample: when the store is unreachable (the GET throws), the
request is not admitted: the handler is never invoked and the wrapper
returns the store error rather than the handler result. -/
theorem c9_store_error_blocks_handler :
    (rateLimitedCall TestCtx.isGnz TestCtx.ip ⟨none, some 100, none⟩ "listItems" 12
      (fun _ => .ok (7 : Nat)) (some "ETIMEDOUT") none [⟨true, "10.0.0.8"⟩]
      (fun _ => none)).handlerCalls = [] ∧
    (rateLimitedCall TestCtx.isGnz TestCtx.ip ⟨none, some 100, none⟩ "listItems" 12
      (fun _ => .ok (7 : Nat)) (some "ETIMEDOUT") none [⟨true, "10.0.0.8"⟩]
      (fun _ => none)).result ≠ .ok 7 :=
  ⟨rfl, fun h => Except.noConfusion h⟩

/-- C9 amended: for every admitted request (valid context, counter below
the limit, valid refresh rate, no store error) the handler is invoked
exactly once with the original argument list and the wrapper returns
exactly the handler result, exceptions included; a store error instead
propagates without the handler running. -/
theorem c9_admitted_invokes_handler_once {α ρ : Type} (isGnzContext : α → Bool)
    (sourceIp : α → String) (dict : GenezioRateLimiterOptionsParameters)
    (scopeName : String) (time : Nat) (handler : List α → Except ThrownError ρ)
    (a : α) (rest : List α) (st : Store)
    (hctx : isGnzContext a = true)
    (hrr : refreshRateInvalid dict = false)
    (hunder : ∀ c, st (windowKey (sourceIp a) scopeName time) = some c →
      c < effectiveLimit dict) :
    (rateLimitedCall isGnzContext sourceIp dict scopeName time handler none none
      (a :: rest) st).handlerCalls = [a :: rest] ∧
    (rateLimitedCall isGnzContext sourceIp dict scopeName time handler none none
      (a :: rest) st).result = handler (a :: rest) := by
  have hstep := rateLimitedCall_underLimit isGnzContext sourceIp dict scopeName time handler a rest
    st hctx hrr hunder
  rw [hstep]
  exact ⟨rfl, rfl⟩

/-- C9 amended witness: a concrete admitted request invokes the handler
once with the original arguments and returns its error unchanged. -/
theorem c9_admitted_invokes_handler_once_witness :
    (rateLimitedCall TestCtx.isGnz TestCtx.ip ⟨none, some 100, none⟩ "listItems" 12
      (fun _ => .error (.genezio "boom" .BadRequest) : List TestCtx → Except ThrownError Nat)
      none none [⟨true, "10.0.0.8"⟩] (fun _ => none)).handlerCalls =
        [[⟨true, "10.0.0.8"⟩]] ∧
    (rateLimitedCall TestCtx.isGnz TestCtx.ip ⟨none, some 100, none⟩ "listItems" 12
      (fun _ => .error (.genezio "boom" .BadRequest) : List TestCtx → Except ThrownError Nat)
      none none [⟨true, "10.0.0.8"⟩] (fun _ => none)).result =
        .error (.genezio "boom" .BadRequest) := by
  exact c9_admitted_invokes_handler_once TestCtx.isGnz TestCtx.ip ⟨none, some 100, none⟩
    "listItems" 12 _ ⟨true, "10.0.0.8"⟩ [] (fun _ => none) rfl rfl
    (by intro c hc; exact absurd hc (by simp))

/-- C10: with limit explicitly 0 (falsy) the effective threshold is the
default 50: a request with a valid context is rejected exactly when the
stored counter is at least 50, and admitted (handler invoked, result
returned) when the counter is below 50 or absent. -/
theorem c10_zero_limit_uses_default {α ρ : Type} (isGnzContext : α → Bool)
    (sourceIp : α → String) (dict : GenezioRateLimiterOptionsParameters)
    (scopeName : String) (time : Nat) (handler : List α → Except ThrownError ρ)
    (a : α) (rest : List α) (st : Store)
    (hctx : isGnzContext a = true)
    (hlim : dict.limit = some 0)
    (hrr : refreshRateInvalid dict = false) :
    (∀ c : Int, st (windowKey (sourceIp a) scopeName time) = some c → 50 ≤ c →
      (rateLimitedCall isGnzContext sourceIp dict scopeName time handler none none
        (a :: rest) st).result = .error (.genezio rateLimitMsg .RequestTimeout) ∧
      (rateLimitedCall isGnzContext sourceIp dict scopeName time handler none none
        (a :: rest) st).handlerCalls = []) ∧
    (∀ c : Int, st (windowKey (sourceIp a) scopeName time) = some c → c < 50 →
      (rateLimitedCall isGnzContext sourceIp dict scopeName time handler none none
        (a :: rest) st).handlerCalls = [a :: rest] ∧
      (rateLimitedCall isGnzContext sourceIp dict scopeName time handler none none
        (a :: rest) st).result = handler (a :: rest)) ∧
    (st (windowKey (sourceIp a) scopeName time) = none →
      (rateLimitedCall isGnzContext sourceIp dict scopeName time handler none none
        (a :: rest) st).handlerCalls = [a :: rest] ∧
      (rateLimitedCall isGnzContext sourceIp dict scopeName time handler none none
        (a :: rest) st).result = handler (a :: rest)) := by
  have h50 := effectiveLimit_zero dict hlim
  refine ⟨?_, ?_, ?_⟩
  · intro c hkey hc
    have hstep := rateLimitedCall_reject isGnzContext sourceIp dict scopeName time handler
      a rest st c hctx hkey (h50 ▸ hc)
    rw [hstep]
    exact ⟨rfl, rfl⟩
  · intro c hkey hc
    have hunder : ∀ d, st (windowKey (sourceIp a) scopeName time) = some d →
        d < effectiveLimit dict := by
      intro d hd
      rw [hkey] at hd
      injection hd with hd
      rw [h50]
      omega
    have hstep := rateLimitedCall_underLimit isGnzContext sourceIp dict scopeName time handler
      a rest st hctx hrr hunder
    rw [hstep]
    exact ⟨rfl, rfl⟩
  · intro hkey
    have hunder : ∀ d, st (windowKey (sourceIp a) scopeName time) = some d →
        d < effectiveLimit dict := by
      intro d hd
      rw [hkey] at hd
      exact Option.noConfusion hd
    have hstep := rateLimitedCall_underLimit isGnzContext sourceIp dict scopeName time handler
      a rest st hctx hrr hunder
    rw [hstep]
    exact ⟨rfl, rfl⟩

/-- C10 witness: with limit 0 and a stored counter of exactly 50 the
request is rejected with the rate-limit error, and with a counter of 49 it
is admitted. -/
theorem c10_zero_limit_uses_default_witness :
    (rateLimitedCall TestCtx.isGnz TestCtx.ip ⟨none, some 0, none⟩ "getData" 9
      (fun _ => .ok (1 : Nat)) none none [⟨true, "4.4.4.4"⟩]
      (fun _ => some 50)).result = .error (.genezio rateLimitMsg .RequestTimeout) ∧
    (rateLimitedCall TestCtx.isGnz TestCtx.ip ⟨none, some 0, none⟩ "getData" 9
      (fun _ => .ok (1 : Nat)) none none [⟨true, "4.4.4.4"⟩]
      (fun _ => some 49)).handlerCalls = [[⟨true, "4.4.4.4"⟩]] := by
  constructor
  · obtain ⟨hrej, -, -⟩ := c10_zero_limit_uses_default TestCtx.isGnz TestCtx.ip
      ⟨none, some 0, none⟩ "getData" 9 (fun _ => .ok (1 : Nat)) ⟨true, "4.4.4.4"⟩ []
      (fun _ => some 50) rfl rfl rfl
    exact (hrej 50 rfl (by decide)).1
  · obtain ⟨-, hadm, -⟩ := c10_zero_limit_uses_default TestCtx.isGnz TestCtx.ip
      ⟨none, some 0, none⟩ "getData" 9 (fun _ => .ok (1 : Nat)) ⟨true, "4.4.4.4"⟩ []
      (fun _ => some 49) rfl rfl rfl
    exact (hadm 49 rfl (by decide)).1

end RateLimiterModel
